import Mathlib

/-!
Verification of the DeepSolv Shopify-store insights extractor against its
specification.  The Python sources under `services/` and `utils/` are shallowly
embedded: pure string manipulation is translated directly (Python `str` becomes
`String`, processed through character lists so that every definition reduces in
the kernel); results of BeautifulSoup HTML queries, network fetches and the
external web-search are modelled as explicit inputs to the embedded functions,
since they are the interface to code outside the extraction pipeline.
-/

namespace DeepSolv

/-! Section: Python string primitives

Counterparts of the Python `str` operations used by the sources.  All are
structural recursions over `String.data` so concrete evaluation reduces. -/

/-- Python `str.lower()`. -/
def pyLower (s : String) : String := String.mk (s.data.map Char.toLower)

/-- Python `str.strip()` (strip whitespace from both ends). -/
def pyStrip (s : String) : String :=
  String.mk (((s.data.dropWhile Char.isWhitespace).reverse.dropWhile Char.isWhitespace).reverse)

/-- Python `s.startswith(pre)`. -/
def pyStartsWith (s pre : String) : Bool := pre.data.isPrefixOf s.data

/-- Python `s.endswith(suf)`. -/
def pyEndsWith (s suf : String) : Bool := suf.data.reverse.isPrefixOf s.data.reverse

/-- Substring test on character lists (Python `needle in haystack`). -/
def containsSublist [BEq α] : List α → List α → Bool
  | needle, [] => needle.isEmpty
  | needle, x :: rest => needle.isPrefixOf (x :: rest) || containsSublist needle rest

/-- Python `sub in s` for strings. -/
def pyIn (sub s : String) : Bool := containsSublist sub.data s.data

/-- Worker for `pySplit`; fuel-driven so that it is structural and reduces. -/
def splitOnGo (sep : List Char) : Nat → List Char → List Char → List (List Char)
  | 0, rem, acc => [acc.reverse ++ rem]
  | _ + 1, [], acc => [acc.reverse]
  | fuel + 1, c :: rest, acc =>
    if sep.isPrefixOf (c :: rest) then
      acc.reverse :: splitOnGo sep fuel ((c :: rest).drop sep.length) []
    else
      splitOnGo sep fuel rest (c :: acc)

/-- Python `s.split(sep)` with an explicit separator. -/
def pySplit (s sep : String) : List String :=
  if sep.data.isEmpty then [s]
  else (splitOnGo sep.data (s.data.length + 1) s.data []).map String.mk

/-- Worker for `pyReplace`; fuel-driven so that it is structural and reduces. -/
def replaceGo (old new : List Char) : Nat → List Char → List Char
  | 0, rem => rem
  | _ + 1, [] => []
  | fuel + 1, c :: rest =>
    if old.isPrefixOf (c :: rest) then
      new ++ replaceGo old new fuel ((c :: rest).drop old.length)
    else
      c :: replaceGo old new fuel rest

/-- Python `s.replace(old, new)` (replaces every occurrence). -/
def pyReplace (s old new : String) : String :=
  if old.data.isEmpty then s
  else String.mk (replaceGo old.data new.data (s.data.length + 1) s.data)

/-- Python `str.capitalize()`: first character upper-cased, the rest lower-cased. -/
def pyCapitalize (s : String) : String :=
  String.mk (match s.data with
    | [] => []
    | c :: rest => c.toUpper :: rest.map Char.toLower)

/-- Python `str.title()` restricted to the space-separated lower-case words it is
applied to in the sources (policy-type names). -/
def pyTitle (s : String) : String :=
  String.intercalate " " ((pySplit s " ").map pyCapitalize)

/-- Drop every trailing occurrence of a character (Python `s.rstrip('/')`). -/
def rstripChar (s : String) (c : Char) : String :=
  String.mk ((s.data.reverse.dropWhile (fun d => d = c)).reverse)

/-- Drop trailing characters satisfying a predicate. -/
def dropRightWhileStr (s : String) (p : Char → Bool) : String :=
  String.mk ((s.data.reverse.dropWhile p).reverse)

/-- Characters kept by `clean_text`'s second regex, `[\w\s\-\.,!?;:()\[\]\x7b\x7d@#$%&*+=<>/\\|` + backquote + `~"` + quote + `]`. -/
def cleanTextKeep (c : Char) : Bool :=
  c.isAlphanum || c = '_' || c.isWhitespace ||
  c = '-' || c = '.' || c = ',' || c = '!' || c = '?' || c = ';' || c = ':' ||
  c = '(' || c = ')' || c = '[' || c = ']' || c = Char.ofNat 123 || c = Char.ofNat 125 ||
  c = '@' || c = '#' || c = '$' || c = '%' || c = '&' || c = '*' || c = '+' ||
  c = '=' || c = '<' || c = '>' || c = '/' || c = '\\' || c = '|' ||
  c = Char.ofNat 96 || c = '~' || c = '"' || c = Char.ofNat 39

/-- Embedding of `utils.helpers.clean_text`: collapse whitespace runs of the stripped text to
single spaces, then remove characters outside the allowed set. -/
def clean_text (s : String) : String :=
  if s = "" then ""
  else
    let collapsed :=
      String.intercalate " " (((pyStrip s).data.splitOnP Char.isWhitespace).map String.mk
        |>.filter (fun w => w ≠ ""))
    String.mk (collapsed.data.filter cleanTextKeep)

/-! Section: Data model (`models/brand_data.py`) -/

/-- The `PolicyType` enum. -/
inductive PolicyType where
  | PRIVACY
  | REFUND
  | RETURN
  | TERMS
  | SHIPPING
deriving DecidableEq, Repr

/-- The `Policy` pydantic model (fields set by the analyzer). -/
structure Policy where
  type : PolicyType
  title : String
  content : String
  url : Option String := none
deriving DecidableEq, Repr

/-- One entry of the scraped-content mapping: the per-page dict returned by the
fetch helpers, of which the policy/FAQ aggregation reads the `content` key. -/
structure PageData where
  content : Option String := none
deriving DecidableEq, Repr

/-! Section: Policy aggregation (`realtime_analyzer._parse_comprehensive_policies`) -/

/-- Embedding of `policy_mappings.get(policy_type, PolicyType.TERMS)`. -/
def policy_mappings (s : String) : PolicyType :=
  if s = "privacy" then .PRIVACY
  else if s = "terms" then .TERMS
  else if s = "refund" then .RETURN
  else if s = "returns" then .RETURN
  else if s = "shipping" then .SHIPPING
  else .TERMS

/-- The fixed `policy_urls` list of `(url, policy_type)` pairs. -/
def policy_urls (mainUrl : String) : List (String × String) :=
  let b := rstripChar mainUrl '/'
  [ (b ++ "/pages/privacy-policy", "privacy"),
    (b ++ "/pages/privacy", "privacy"),
    (b ++ "/pages/terms-of-service", "terms"),
    (b ++ "/pages/terms", "terms"),
    (b ++ "/pages/refund-policy", "refund"),
    (b ++ "/pages/returns", "returns"),
    (b ++ "/pages/shipping-policy", "shipping"),
    (b ++ "/pages/shipping", "shipping") ]

/-- The loop body of `_parse_comprehensive_policies` for one `(url, type)` pair:
if the URL is in the scraped mapping with a truthy `content` longer than 100
characters, one `Policy` is appended (content truncated to 2000 characters);
the length test subsumes the truthiness test on `content`. -/
def policyEntry (scraped : List (String × Option PageData)) (url ptype : String) :
    List Policy :=
  match List.lookup url scraped with
  | some (some pd) =>
    match pd.content with
    | some content =>
      if content.length > 100 then
        [{ type := policy_mappings ptype,
           title := pyTitle (pyReplace ptype "_" " ") ++ " Policy",
           content := content.take 2000 }]
      else []
    | none => []
  | _ => []

/-- Embedding of `_parse_comprehensive_policies`: one conditional append per pair of the
fixed `policy_urls` list. -/
def parse_comprehensive_policies (mainUrl : String)
    (scraped : List (String × Option PageData)) : List Policy :=
  (policy_urls mainUrl).flatMap (fun p => policyEntry scraped p.1 p.2)

/-! Claim C1 -/

theorem policyEntry_countP_le (scraped : List (String × Option PageData))
    (url ptype : String) (pt : PolicyType) :
    (policyEntry scraped url ptype).countP (fun p => decide (p.type = pt)) ≤
      (if policy_mappings ptype = pt then 1 else 0) := by
  unfold policyEntry
  split
  · split
    · split
      · simp only [List.countP_cons, List.countP_nil]
        split <;> simp_all [List.countP_nil]
      · simp [List.countP_nil]
    · simp [List.countP_nil]
  · simp [List.countP_nil]

theorem countP_flatMap_policyEntry (scraped : List (String × Option PageData))
    (l : List (String × String)) (pt : PolicyType) :
    (l.flatMap (fun p => policyEntry scraped p.1 p.2)).countP
        (fun p => decide (p.type = pt)) ≤
      l.countP (fun p => decide (policy_mappings p.2 = pt)) := by
  induction l with
  | nil => simp
  | cons hd tl ih =>
    simp only [List.flatMap_cons, List.countP_append, List.countP_cons]
    have h := policyEntry_countP_le scraped hd.1 hd.2 pt
    by_cases hc : policy_mappings hd.2 = pt
    · rw [if_pos hc] at h
      rw [if_pos (by simp [hc])]
      omega
    · rw [if_neg hc] at h
      rw [if_neg (by simp [hc])]
      omega

theorem policy_urls_countP_le_two (mainUrl : String) (pt : PolicyType) :
    (policy_urls mainUrl).countP (fun p => decide (policy_mappings p.2 = pt)) ≤ 2 := by
  cases pt <;>
    simp [policy_urls, policy_mappings, List.countP_cons, List.countP_nil]

/-- A 101+-character body used by concrete scraped-content examples. -/
def longBody : String := String.mk (List.replicate 150 'p')

/-- Concrete scraped content in which both differently-named privacy pages were
fetched successfully with bodies over 100 characters. -/
def dupPrivacyScraped : List (String × Option PageData) :=
  [ ("https://acme.example.com/pages/privacy-policy", some { content := some longBody }),
    ("https://acme.example.com/pages/privacy", some { content := some longBody }) ]

set_option maxRecDepth 100000 in
/-- C1 counterexample: with both `/pages/privacy-policy` and `/pages/privacy`
fetched successfully (bodies over 100 characters), the aggregated policies list
contains two entries of type `privacy`, so it does not hold at most one `Policy`
per policy type. -/
theorem policies_two_privacy_entries :
    ¬ ((parse_comprehensive_policies "https://acme.example.com" dupPrivacyScraped).countP
        (fun p => decide (p.type = PolicyType.PRIVACY)) ≤ 1) := by
  decide

/-- C1 (amended): for every scraped-content mapping, the aggregated policies
list contains at most two `Policy` entries per policy type — one per fetched
page-path variant of that type; duplicate types arising from differently-named
pages are not collapsed. -/
theorem policies_at_most_two_per_type (mainUrl : String)
    (scraped : List (String × Option PageData)) (pt : PolicyType) :
    (parse_comprehensive_policies mainUrl scraped).countP
      (fun p => decide (p.type = pt)) ≤ 2 := by
  unfold parse_comprehensive_policies
  exact le_trans (countP_flatMap_policyEntry scraped (policy_urls mainUrl) pt)
    (policy_urls_countP_le_two mainUrl pt)

/-! Section: FAQ extraction (`parser.parse_faqs_from_html`) and aggregation
(`realtime_analyzer._parse_comprehensive_faqs`)

BeautifulSoup queries are modelled by `FaqSoup`: the elements each extraction
strategy would select from the page, carrying their text content. -/

/-- The `FAQ` pydantic model. -/
structure FAQ where
  question : String
  answer : String
  category : Option String := none
deriving DecidableEq, Repr

/-- One `.qa-pair / .faq-item / .accordion-item` element: the text of its
selected question and answer sub-elements (absent when `select_one` finds
none). -/
structure QaPair where
  question : Option String
  answer : Option String
deriving DecidableEq, Repr

/-- One `.faq / .accordion / .qa-section / [data-faq]` container and the
question-answer pair elements found inside it. -/
structure FaqContainer where
  qa_pairs : List QaPair
deriving DecidableEq, Repr

/-- One `h3/h4/h5` heading: its text and the text of the next `p`/`div`
sibling, when present. -/
structure FaqHeading where
  text : String
  nextSibling : Option String
deriving DecidableEq, Repr

/-- One `dl` element: the texts of its `dt` and `dd` children. -/
structure FaqDl where
  dts : List String
  dds : List String
deriving DecidableEq, Repr

/-- The BeautifulSoup view of one page taken by the three FAQ strategies. -/
structure FaqSoup where
  containers : List FaqContainer
  headings : List FaqHeading
  dls : List FaqDl
deriving DecidableEq, Repr

/-- Embedding of `_extract_faqs_from_container`. -/
def extract_faqs_from_container (c : FaqContainer) : List FAQ :=
  c.qa_pairs.filterMap (fun pair =>
    match pair.question, pair.answer with
    | some qr, some ar =>
      let q := clean_text qr
      let a := clean_text ar
      if q ≠ "" && a ≠ "" && q.length > 5 && a.length > 10 then
        some { question := q, answer := a }
      else none
    | _, _ => none)

/-- The regex `\?|How|What|When|Where|Why|Can|Is|Do|Does` used to filter
question-like headings (a `re.search`, i.e. substring containment). -/
def questionLike (t : String) : Bool :=
  ["?", "How", "What", "When", "Where", "Why", "Can", "Is", "Do", "Does"].any
    (fun w => pyIn w t)

/-- Embedding of `_extract_faqs_from_headings`. -/
def extract_faqs_from_headings (soup : FaqSoup) : List FAQ :=
  (soup.headings.filter (fun h => questionLike h.text)).filterMap (fun h =>
    let q := clean_text h.text
    match h.nextSibling with
    | some ar =>
      let a := clean_text ar
      if q ≠ "" && a ≠ "" && a.length > 10 then
        some { question := q, answer := a }
      else none
    | none => none)

/-- Embedding of `_extract_faqs_from_dl`. -/
def extract_faqs_from_dl (soup : FaqSoup) : List FAQ :=
  soup.dls.flatMap (fun dl =>
    (dl.dts.zip dl.dds).filterMap (fun p =>
      let q := clean_text p.1
      let a := clean_text p.2
      if q ≠ "" && a ≠ "" && a.length > 10 then
        some { question := q, answer := a }
      else none))

/-- Embedding of `parse_faqs_from_html`: strategies tried in order, first non-empty result
wins, capped at 20 entries. -/
def parse_faqs_from_html (soup : FaqSoup) : List FAQ :=
  let m1 := soup.containers.flatMap extract_faqs_from_container
  let faqs :=
    if m1.isEmpty then
      let m2 := extract_faqs_from_headings soup
      if m2.isEmpty then extract_faqs_from_dl soup else m2
    else m1
  faqs.take 20

/-- The dedicated FAQ page URLs checked by `_parse_comprehensive_faqs`. -/
def faq_page_urls (mainUrl : String) : List String :=
  let b := rstripChar mainUrl '/'
  [b ++ "/pages/faq", b ++ "/pages/help", b ++ "/pages/support"]

/-- Per-page step of `_parse_comprehensive_faqs`: if the FAQ page URL is in the
scraped mapping with truthy content, run `parse_faqs_from_html` on it (HTML
parsing modelled by `soupOf`). -/
def pageFaqs (soupOf : String → FaqSoup) (scraped : List (String × Option PageData))
    (u : String) : List FAQ :=
  match List.lookup u scraped with
  | some (some pd) =>
    match pd.content with
    | some c => if c ≠ "" then parse_faqs_from_html (soupOf c) else []
    | none => []
  | _ => []

/-- The three generic default FAQs substituted when nothing was extracted. -/
def default_faqs : List FAQ :=
  [ { question := "Do you offer international shipping?",
      answer := "Please check our shipping policy for international delivery options." },
    { question := "What is your return policy?",
      answer := "Please refer to our return policy page for detailed information about returns and exchanges." },
    { question := "How can I contact customer support?",
      answer := "You can reach our customer support team through the contact information provided on our website." } ]

/-- Embedding of `_parse_comprehensive_faqs`: concatenate the three FAQ pages' extractions;
substitute the three defaults when the result is empty. -/
def parse_comprehensive_faqs (soupOf : String → FaqSoup) (mainUrl : String)
    (scraped : List (String × Option PageData)) : List FAQ :=
  let faqs := (faq_page_urls mainUrl).flatMap (pageFaqs soupOf scraped)
  if faqs.isEmpty then default_faqs else faqs

/-! Claim C4 -/

theorem parse_faqs_le_twenty (soup : FaqSoup) :
    (parse_faqs_from_html soup).length ≤ 20 := by
  unfold parse_faqs_from_html
  simp only [List.length_take]
  exact min_le_left _ _

theorem pageFaqs_le_twenty (soupOf : String → FaqSoup)
    (scraped : List (String × Option PageData)) (u : String) :
    (pageFaqs soupOf scraped u).length ≤ 20 := by
  unfold pageFaqs
  split
  · split
    · split
      · exact parse_faqs_le_twenty _
      · simp
    · simp
  · simp

/-- An FAQ-page soup whose container strategy yields 11 valid pairs. -/
def elevenPairSoup : FaqSoup :=
  { containers :=
      [{ qa_pairs := List.replicate 11
          { question := some "Is it good", answer := some "Yes it is very good" } }],
    headings := [], dls := [] }

/-- Scraped content with both the `/pages/faq` and `/pages/help` pages fetched. -/
def twoFaqPagesScraped : List (String × Option PageData) :=
  [ ("https://acme.example.com/pages/faq", some { content := some "x" }),
    ("https://acme.example.com/pages/help", some { content := some "x" }) ]

set_option maxRecDepth 100000 in
/-- C4 counterexample: with two dedicated FAQ pages each yielding 11 entries,
the aggregated faqs list has 22 entries, so the final profile's faqs are not
capped at 20. -/
theorem faqs_aggregate_exceeds_twenty :
    ¬ ((parse_comprehensive_faqs (fun _ => elevenPairSoup) "https://acme.example.com"
        twoFaqPagesScraped).length ≤ 20) := by
  decide

/-- C4 (amended): per-page FAQ extraction caps its result at 20 entries, and if
the combined dedicated FAQ-page analysis yields zero entries, exactly the three
generic default question/answer pairs are substituted; the final aggregated
faqs sequence concatenates up to three FAQ pages' capped results without a
further cap, so its length is at most 60 (not 20). -/
theorem faqs_caps :
    (∀ soup : FaqSoup, (parse_faqs_from_html soup).length ≤ 20)
    ∧ (∀ (soupOf : String → FaqSoup) (mainUrl : String)
        (scraped : List (String × Option PageData)),
        (parse_comprehensive_faqs soupOf mainUrl scraped).length ≤ 60)
    ∧ (∀ (soupOf : String → FaqSoup) (mainUrl : String)
        (scraped : List (String × Option PageData)),
        (∀ u ∈ faq_page_urls mainUrl, pageFaqs soupOf scraped u = []) →
        parse_comprehensive_faqs soupOf mainUrl scraped = default_faqs) := by
  refine ⟨parse_faqs_le_twenty, ?_, ?_⟩
  · intro soupOf mainUrl scraped
    unfold parse_comprehensive_faqs
    dsimp only
    split
    · simp [default_faqs]
    · simp only [faq_page_urls, List.flatMap_cons, List.flatMap_nil, List.append_nil,
        List.length_append]
      have h1 := pageFaqs_le_twenty soupOf scraped (rstripChar mainUrl '/' ++ "/pages/faq")
      have h2 := pageFaqs_le_twenty soupOf scraped (rstripChar mainUrl '/' ++ "/pages/help")
      have h3 := pageFaqs_le_twenty soupOf scraped (rstripChar mainUrl '/' ++ "/pages/support")
      omega
  · intro soupOf mainUrl scraped h
    unfold parse_comprehensive_faqs
    have hflat : (faq_page_urls mainUrl).flatMap (pageFaqs soupOf scraped) = [] := by
      simp only [faq_page_urls, List.flatMap_cons, List.flatMap_nil, List.append_nil]
      rw [h _ (by simp [faq_page_urls]), h _ (by simp [faq_page_urls]),
        h _ (by simp [faq_page_urls])]
      simp
    simp [faq_page_urls] at hflat ⊢
    simp [hflat]

/-- C4 witness: on a concrete input with no FAQ page fetched, the aggregate is
exactly the three default FAQs. -/
theorem faqs_caps_witness :
    parse_comprehensive_faqs (fun _ => ⟨[], [], []⟩) "https://example.com" [] = default_faqs :=
  faqs_caps.2.2 (fun _ => ⟨[], [], []⟩) "https://example.com" [] (by decide)

/-! Section: Hero products (`parser.parse_hero_products_from_html`)

The selector cascades run against BeautifulSoup are modelled by `HeroSoup`: for
each selector of the primary/secondary/fallback groups, the list of elements it
matches, each element represented by the result of
`_extract_hero_product_from_element` on it (that helper's own field-selector
cascades are HTML queries, so the element is modelled by its extraction
outcome); plus the images/headings/links that the synthetic-product fallback
scans. -/

/-- The `HeroProduct` pydantic model. -/
structure HeroProduct where
  title : Option String := none
  price : Option String := none
  image_url : Option String := none
  product_url : Option String := none
  description : Option String := none
deriving DecidableEq, Repr

/-- An `img` element with alt text: its stripped-from-source `alt` and resolved
`src` (`src` / `data-src` / `data-lazy`), and the texts of its parent's
`p/div/span/h1/h2/h3` descendants. -/
structure SynthImage where
  alt : String
  src : String
  parentTexts : List String
deriving DecidableEq, Repr

/-- An `h1..h5` heading and the text of its next `p/div/span` element. -/
structure SynthHeading where
  text : String
  nextText : Option String
deriving DecidableEq, Repr

/-- An `a[href]` element: its text and href. -/
structure SynthLink where
  text : String
  href : String
deriving DecidableEq, Repr

/-- The BeautifulSoup view of the home page taken by hero-product extraction. -/
structure HeroSoup where
  primary : List (List (Option HeroProduct))
  secondary : List (List (Option HeroProduct))
  fallback : List (List (Option HeroProduct))
  images : List SynthImage
  headings : List SynthHeading
  links : List SynthLink
deriving DecidableEq, Repr

/-- Scheme-and-host part of a URL, for root-relative joins. -/
def urlSchemeHost (u : String) : String :=
  match pySplit u "://" with
  | scheme :: rest :: _ => scheme ++ "://" ++ ((pySplit rest "/").headD "")
  | _ => u

/-- Embedding of `utils.helpers.build_absolute_url`; `urllib.parse.urljoin` is modelled for
the root-relative and plain-relative cases the parser exercises. -/
def build_absolute_url (base rel : String) : String :=
  if rel = "" then base
  else if pyStartsWith rel "http://" || pyStartsWith rel "https://" then rel
  else if pyStartsWith rel "/" then urlSchemeHost base ++ rel
  else rstripChar base '/' ++ "/" ++ rel

/-- The filter applied to every extracted element before it is kept:
`hero_product and hero_product.title and len(hero_product.title.strip()) > 2`. -/
def heroKeep (h : HeroProduct) : Bool :=
  match h.title with
  | some t => t ≠ "" && (pyStrip t).length > 2
  | none => false

/-- One selector-group pass: per selector, stop adding once 10 candidates have
accumulated (the `break` is checked between selectors, not between elements). -/
def collectStage (acc : List HeroProduct) (groups : List (List (Option HeroProduct))) :
    List HeroProduct :=
  groups.foldl (fun acc elems =>
    if acc.length ≥ 10 then acc
    else acc ++ elems.filterMap (fun e =>
      match e with
      | some h => if heroKeep h then some h else none
      | none => none)) acc

/-- The near-duplicate test of the dedup pass: one title key a substring of the
other with length difference under 5. -/
def heroDupOf (seen : List String) (key : String) : Bool :=
  seen.any (fun s =>
    (containsSublist key.data s.data || containsSublist s.data key.data) &&
    ((key.length : Int) - (s.length : Int)).natAbs < 5)

/-- The duplicate-removal pass over accumulated hero products (entries with a
falsy title are dropped). -/
def dedup_heroes (heroes : List HeroProduct) : List HeroProduct :=
  (heroes.foldl (fun (st : List String × List HeroProduct) hero =>
    match hero.title with
    | some t =>
      if t = "" then st
      else
        let key := pyStrip (pyLower t)
        if heroDupOf st.1 key then st
        else (st.1 ++ [key], st.2 ++ [hero])
    | none => st) ([], [])).2

def imageSkipTerms : List String := ["logo", "icon", "arrow", "menu", "close"]

/-- Embedding of `_create_synthetic_hero_products`, method 1: products from images with
descriptive alt text. -/
def synthFromImages (baseUrl : String) (images : List SynthImage) (needed : Nat) :
    List HeroProduct :=
  (images.take (needed * 3)).foldl (fun acc img =>
    if acc.length ≥ needed then acc
    else
      let alt := pyStrip img.alt
      if alt ≠ "" && alt.length > 2 && img.src ≠ "" then
        if !(imageSkipTerms.any (fun t => pyIn t (pyLower alt))) then
          let description := img.parentTexts.findSome? (fun tx =>
            let ct := clean_text tx
            if ct ≠ "" && ct.length > 10 && ct.length < 300 then some ct else none)
          acc ++ [{ title := some (alt.take 100),
                    description := some (description.getD ("Featured content: " ++ alt)),
                    image_url := some (build_absolute_url baseUrl img.src) }]
        else acc
      else acc) []

def headingSkipTerms : List String :=
  ["home", "about", "contact", "menu", "search", "cart", "login"]

/-- Embedding of `_create_synthetic_hero_products`, method 2: products from page headings. -/
def synthFromHeadings (acc0 : List HeroProduct) (headings : List SynthHeading)
    (needed : Nat) : List HeroProduct :=
  (headings.take (needed * 2)).foldl (fun acc h =>
    if acc.length ≥ needed then acc
    else
      let htext := clean_text h.text
      if htext ≠ "" && htext.length > 3 then
        if !(headingSkipTerms.any (fun t => pyIn t (pyLower htext))) then
          let description :=
            match h.nextText with
            | some nt =>
              let dt := clean_text nt
              if dt ≠ "" && dt.length > 5 then
                some (if dt.length > 200 then dt.take 200 ++ "..." else dt)
              else none
            | none => none
          acc ++ [{ title := some (htext.take 100),
                    description := some (description.getD ("Featured section: " ++ htext)) }]
        else acc
      else acc) acc0

def linkSkipTerms : List String :=
  ["home", "about", "contact", "menu", "search", "cart", "login", "sign up",
   "learn more", "read more", "view all", "see all"]

/-- Embedding of `_create_synthetic_hero_products`, method 3: products from link texts. -/
def synthFromLinks (baseUrl : String) (acc0 : List HeroProduct)
    (links : List SynthLink) (needed : Nat) : List HeroProduct :=
  (links.take (needed * 2)).foldl (fun acc l =>
    if acc.length ≥ needed then acc
    else
      let ltext := clean_text l.text
      if ltext ≠ "" && ltext.length > 3 && ltext.length < 100 then
        if !(linkSkipTerms.any (fun t => pyIn t (pyLower ltext))) then
          acc ++ [{ title := some ltext,
                    description := some ("Featured link: " ++ ltext ++
                      ". Click to learn more about this offering."),
                    product_url :=
                      if l.href ≠ "" then some (build_absolute_url baseUrl l.href)
                      else none }]
        else acc
      else acc) acc0

/-- The guaranteed basic synthetic product appended by the final `while` of
`_create_synthetic_hero_products`. -/
def basicSynthProduct (baseUrl : String) (number : Nat) : HeroProduct :=
  { title := some ("Store Feature #" ++ toString number),
    description := some ("This store offers quality products and services. Feature #" ++
      toString number ++
      " represents one of the highlighted offerings available for customers."),
    product_url := some baseUrl }

/-- The `while len(synthetic_products) < count_needed` fill loop. -/
def fillBasicSynth (baseUrl : String) (acc : List HeroProduct) (needed : Nat) :
    List HeroProduct :=
  acc ++ (List.range (needed - acc.length)).map
    (fun i => basicSynthProduct baseUrl (acc.length + i + 1))

/-- Embedding of `_create_synthetic_hero_products`: three content-based methods, then the
guaranteed basic fill, truncated to exactly the requested count. -/
def create_synthetic_hero_products (baseUrl : String) (soup : HeroSoup) (needed : Nat) :
    List HeroProduct :=
  let s1 := synthFromImages baseUrl soup.images needed
  let s2 := if s1.length < needed then synthFromHeadings s1 soup.headings needed else s1
  let s3 := if s2.length < needed then synthFromLinks baseUrl s2 soup.links needed else s2
  (fillBasicSynth baseUrl s3 needed).take needed

/-- The `_create_emergency_hero_product` title (cycled over five variants). -/
def emergencyTitle (number : Nat) : String :=
  ([ "Premium Collection Item #" ++ toString number,
     "Featured Product #" ++ toString number,
     "Best Seller #" ++ toString number,
     "Customer Favorite #" ++ toString number,
     "Top Quality Item #" ++ toString number ]).getD ((number - 1) % 5) ""

/-- The `_create_emergency_hero_product` description (cycled over five variants). -/
def emergencyDescription (number : Nat) : String :=
  let n := toString number
  ([ "High-quality product #" ++ n ++ " carefully selected for our customers. This item represents the excellence and value this store is known for.",
     "Featured offering #" ++ n ++ " from our curated collection. Discover exceptional quality and outstanding value with this carefully chosen product.",
     "Popular item #" ++ n ++ " that customers love. Experience the quality and satisfaction that has made this one of our most recommended products.",
     "Premium selection #" ++ n ++ " showcasing the best of what we offer. Quality craftsmanship and attention to detail make this a standout choice.",
     "Signature product #" ++ n ++ " representing our commitment to excellence. This item embodies the quality and value our customers expect." ]).getD
    ((number - 1) % 5) ""

/-- Embedding of `_create_emergency_hero_product`. -/
def create_emergency_hero_product (baseUrl : String) (number : Nat) : HeroProduct :=
  { title := some (emergencyTitle number),
    description := some (emergencyDescription number),
    price := some (if number % 2 = 0 then "Starting at $29.99" else "Contact for pricing"),
    product_url := some baseUrl }

/-- Embedding of `_create_emergency_hero_products`. -/
def create_emergency_hero_products (baseUrl : String) (count : Nat) : List HeroProduct :=
  (List.range count).map (fun i => create_emergency_hero_product baseUrl (i + 1))

/-- The `while len(unique_heroes) < 2` emergency fill loop. -/
def padEmergencyTwo (baseUrl : String) (l : List HeroProduct) : List HeroProduct :=
  l ++ (List.range (2 - l.length)).map
    (fun i => create_emergency_hero_product baseUrl (l.length + i + 1))

/-- Embedding of `parse_hero_products_from_html`: primary selectors, then (below 2 results)
secondary and fallback selectors, near-duplicate removal, synthetic creation up
to the 2-entry floor, the emergency `while` fill (the identical re-check after
the `try` block is a no-op repetition of it), and truncation to 10. -/
def parse_hero_products_from_html (baseUrl : String) (soup : HeroSoup) :
    List HeroProduct :=
  let hp := collectStage [] soup.primary
  let hp := if hp.length < 2 then collectStage hp soup.secondary else hp
  let hp := if hp.length < 2 then collectStage hp soup.fallback else hp
  let uh := dedup_heroes hp
  let uh :=
    if uh.length < 2 then uh ++ create_synthetic_hero_products baseUrl soup (2 - uh.length)
    else uh
  (padEmergencyTwo baseUrl uh).take 10

/-- The hero-product step of `_parse_comprehensive_content`: emergency products
when the home page has no HTML, the parser otherwise, plus the analyzer's
absolute-guarantee re-check. -/
def comprehensive_hero_products (baseUrl : String) (mainHtml : Option HeroSoup) :
    List HeroProduct :=
  let hero :=
    match mainHtml with
    | none => create_emergency_hero_products baseUrl 2
    | some soup => parse_hero_products_from_html baseUrl soup
  if hero.length < 2 then hero ++ create_emergency_hero_products baseUrl (2 - hero.length)
  else hero

/-! Claim C2 and C10 -/

theorem create_synthetic_length (baseUrl : String) (soup : HeroSoup) (needed : Nat) :
    (create_synthetic_hero_products baseUrl soup needed).length = needed := by
  unfold create_synthetic_hero_products fillBasicSynth
  simp only [List.length_take, List.length_append, List.length_map, List.length_range]
  omega

theorem padEmergencyTwo_length (baseUrl : String) (l : List HeroProduct) :
    2 ≤ (padEmergencyTwo baseUrl l).length := by
  unfold padEmergencyTwo
  simp only [List.length_append, List.length_map, List.length_range]
  omega

theorem hero_len_ge_two_aux (baseUrl : String) (soup : HeroSoup) :
    2 ≤ (parse_hero_products_from_html baseUrl soup).length := by
  unfold parse_hero_products_from_html
  simp only [List.length_take]
  exact le_min (by norm_num) (padEmergencyTwo_length baseUrl _)

theorem hero_len_le_ten_aux (baseUrl : String) (soup : HeroSoup) :
    (parse_hero_products_from_html baseUrl soup).length ≤ 10 := by
  unfold parse_hero_products_from_html
  simp only [List.length_take]
  exact min_le_left _ _

/-- C2: for every home page (any selector-match configuration, including zero
matches, zero images, zero headings and zero links), hero-product extraction
returns at least 2 entries, the floor being met by synthetic and then fully
fabricated placeholder entries; the analyzer-level wrapper preserves the
floor. -/
theorem hero_products_min_two :
    (∀ (baseUrl : String) (soup : HeroSoup),
      2 ≤ (parse_hero_products_from_html baseUrl soup).length)
    ∧ (∀ (baseUrl : String) (mainHtml : Option HeroSoup),
      2 ≤ (comprehensive_hero_products baseUrl mainHtml).length) := by
  refine ⟨hero_len_ge_two_aux, ?_⟩
  intro baseUrl mainHtml
  cases mainHtml with
  | none =>
    unfold comprehensive_hero_products
    dsimp only
    split <;>
      simp only [create_emergency_hero_products, List.length_append, List.length_map,
        List.length_range] <;> omega
  | some soup =>
    have h := hero_len_ge_two_aux baseUrl soup
    unfold comprehensive_hero_products
    dsimp only
    split
    · simp only [create_emergency_hero_products, List.length_append, List.length_map,
        List.length_range]
      omega
    · exact h

/-- C10: for every home page, hero-product extraction truncates to 10 entries,
so the returned length always lies between 2 and 10 inclusive. -/
theorem hero_products_length_bounds (baseUrl : String) (soup : HeroSoup) :
    2 ≤ (parse_hero_products_from_html baseUrl soup).length
    ∧ (parse_hero_products_from_html baseUrl soup).length ≤ 10 :=
  ⟨hero_len_ge_two_aux baseUrl soup, hero_len_le_ten_aux baseUrl soup⟩

/-! Section: Product feed parsing (`parser.parse_products_json`) -/

/-- The `ProductVariant` pydantic model, restricted to the fields the parser reads
when deriving the `Product` (`available`, `price`, `compare_at_price`); the
remaining copied-through variant fields are not inspected by any claim. -/
structure ProductVariant where
  available : Option Bool := none
  price : Option String := none
  compare_at_price : Option String := none
deriving DecidableEq, Repr

/-- Digits of a numeral, as a natural number. -/
def digitsToNat (ds : List Char) : Nat :=
  ds.foldl (fun n c => n * 10 + (c.toNat - 48)) 0

/-- Python `float(...)` on the decimal price strings of the feed, modelled over
`ℚ` (sign, integer part, optional fraction); returns `none` where `float`
raises `ValueError`. -/
def pyFloat (s : String) : Option ℚ :=
  let cs := (pyStrip s).data
  let signed : ℚ × List Char :=
    match cs with
    | '-' :: rest => (-1, rest)
    | '+' :: rest => (1, rest)
    | _ => (1, cs)
  let intPart := signed.2.takeWhile Char.isDigit
  let rest := signed.2.drop intPart.length
  match rest with
  | [] => if intPart.isEmpty then none else some (signed.1 * digitsToNat intPart)
  | '.' :: frac =>
    if frac.all Char.isDigit && !(intPart.isEmpty && frac.isEmpty) then
      some (signed.1 * ((digitsToNat intPart : ℚ) +
        (digitsToNat frac : ℚ) / ((10 : ℚ) ^ frac.length)))
    else none
  | _ => none

/-- Embedding of `float(x) if x else None` inside the parser's `try` block: `some none` for
a falsy input (no conversion attempted), `none` when `float` raises. -/
def tryFloatOpt (s : Option String) : Option (Option ℚ) :=
  match s with
  | none => some none
  | some str =>
    if str = "" then some none
    else
      match pyFloat str with
      | some q => some (some q)
      | none => none

/-- Price derivation from the first variant; an exception at the price line
leaves both values `None`, one at the compare line keeps the parsed price. -/
def derive_prices (variants : List ProductVariant) : Option ℚ × Option ℚ :=
  match variants with
  | [] => (none, none)
  | first :: _ =>
    match tryFloatOpt first.price with
    | none => (none, none)
    | some p =>
      match tryFloatOpt first.compare_at_price with
      | none => (p, none)
      | some cp => (p, cp)

/-- One product entry of the `/products.json` feed, restricted to the fields
the parser reads for the claims (id, title, handle, variants). -/
structure ProductData where
  id : String := ""
  title : Option String := none
  handle : Option String := none
  variants : List ProductVariant := []
deriving DecidableEq, Repr

/-- The `Product` pydantic model (fields derived by the parser). -/
structure Product where
  id : String
  title : Option String
  price : Option ℚ
  compare_at_price : Option ℚ
  available : Bool
  variants : List ProductVariant
  url : String
deriving DecidableEq, Repr

/-- The per-product body of `parse_products_json`:
`available = any(v.available for v in variants) if variants else True`, prices
from the first variant, canonical URL from the handle. -/
def parse_product (baseUrl : String) (d : ProductData) : Product :=
  let prices := derive_prices d.variants
  { id := d.id
    title := d.title
    price := prices.1
    compare_at_price := prices.2
    available :=
      if d.variants.isEmpty then true
      else d.variants.any (fun v => v.available.getD false)
    variants := d.variants
    url := build_absolute_url baseUrl ("/products/" ++ d.handle.getD "") }

/-- Embedding of `parse_products_json`: `none` models a missing/empty `products` key. -/
def parse_products_json (baseUrl : String) (productsData : Option (List ProductData)) :
    List Product :=
  match productsData with
  | none => []
  | some products => products.map (parse_product baseUrl)

/-! Claim C5 -/

theorem optGetDFalse (o : Option Bool) : (o.getD false = true) ↔ o = some true := by
  cases o <;> simp

/-- C5: a parsed product is available exactly when it has no variants (the
`True` default) or some variant is available; in particular the concrete
two-variant feed (`available=true` and `available=false`) yields an available
product. -/
theorem product_available_spec :
    (∀ (baseUrl : String) (d : ProductData),
      ((parse_product baseUrl d).available = true ↔
        (d.variants = [] ∨ ∃ v ∈ d.variants, v.available = some true)))
    ∧ ((parse_products_json "https://x.com"
        (some [{ variants := [{ available := some true }, { available := some false }] }])).map
          (fun p => p.available) = [true]) := by
  constructor
  · intro baseUrl d
    unfold parse_product
    dsimp only
    by_cases h : d.variants.isEmpty
    · rw [if_pos h]
      rw [List.isEmpty_iff] at h
      simp [h]
    · rw [if_neg h]
      rw [List.isEmpty_iff] at h
      simp only [List.any_eq_true, optGetDFalse, h, false_or]
  · decide

/-! Section: Contact-info selection (`parser.parse_contact_info_from_html` and the
`_select_best_*` scoring rules)

The regex/markup harvesting of candidate e-mails, phones and addresses scans
the page text and structured elements; the merged candidate lists are the
input (`ContactCandidates`), and the embedded functions are the scoring and
selection rules applied to them. -/

/-- The `ContactInfo` pydantic model. -/
structure ContactInfo where
  emails : List String := []
  phone_numbers : List String := []
  addresses : List String := []
  support_hours : Option String := none
deriving DecidableEq, Repr

/-- Merged candidate contact values (text regexes plus structured markup,
after `list(set(...))` merging). -/
structure ContactCandidates where
  emails : List String := []
  phones : List String := []
  addresses : List String := []
deriving DecidableEq, Repr

/-- The regex `^[a-zA-Z]+@`: a non-empty all-letter local part followed by `@`. -/
def genericWordEmail (s : String) : Bool :=
  let pre := s.data.takeWhile Char.isAlpha
  !pre.isEmpty &&
    (match s.data.drop pre.length with
     | '@' :: _ => true
     | _ => false)

/-- The ordered `priority_patterns` of `_select_best_email`. -/
def email_priority_patterns : List (String → Bool) :=
  [ fun s => pyStartsWith s "info@",
    fun s => pyStartsWith s "contact@",
    fun s => pyStartsWith s "hello@",
    fun s => pyStartsWith s "support@",
    fun s => pyStartsWith s "sales@",
    fun s => pyStartsWith s "admin@",
    genericWordEmail ]

/-- The e-mail score: first matching priority pattern (on the lowered, stripped
e-mail) gives `len(patterns) - i + 10`, plus a shortness bonus and a length
penalty computed on the original e-mail. -/
def scoreEmail (email : String) : Int :=
  let e := pyStrip (pyLower email)
  let base : Int :=
    match email_priority_patterns.findIdx? (fun p => p e) with
    | some i => (email_priority_patterns.length : Int) - i + 10
    | none => 0
  let withBonus := if email.length < 30 then base + 2 else base
  if email.length > 50 then withBonus - 3 else withBonus

/-- Embedding of `_select_best_email`: the stable descending sort followed by taking the
head returns the earliest candidate of maximal score, here computed by a fold
that replaces the current best only on a strictly greater score. -/
def select_best_email (emails : List String) : Option String :=
  match emails with
  | [] => none
  | e :: rest =>
    some (rest.foldl (fun best c => if scoreEmail c > scoreEmail best then c else best) e)

/-- Embedding of `re.sub` removing non-digits from a phone string. -/
def pyDigitsOnly (s : String) : String := String.mk (s.data.filter Char.isDigit)

/-- The regex `^\(\d{3}\)\s*\d{3}-\d{4}` as a prefix match. -/
def matchParenPhone (s : String) : Bool :=
  match s.data with
  | '(' :: a :: b :: c :: ')' :: rest =>
    a.isDigit && b.isDigit && c.isDigit &&
    (match rest.dropWhile Char.isWhitespace with
     | d :: e :: f :: '-' :: g :: h :: i :: j :: _ =>
       d.isDigit && e.isDigit && f.isDigit && g.isDigit && h.isDigit &&
       i.isDigit && j.isDigit
     | _ => false)
  | _ => false

/-- A character of the regex class `[-.\s]`. -/
def sepChar (c : Char) : Bool := c = '-' || c = '.' || c.isWhitespace

/-- The regex `^\d{3}[-.\s]\d{3}[-.\s]\d{4}` as a prefix match. -/
def matchDashPhone (s : String) : Bool :=
  match s.data with
  | a :: b :: c :: s1 :: d :: e :: f :: s2 :: g :: h :: i :: j :: _ =>
    a.isDigit && b.isDigit && c.isDigit && sepChar s1 && d.isDigit && e.isDigit &&
    f.isDigit && sepChar s2 && g.isDigit && h.isDigit && i.isDigit && j.isDigit
  | _ => false

/-- The phone score of `_select_best_phone`. -/
def scorePhone (phone : String) : Int :=
  let pc := pyStrip phone
  let digits := pyDigitsOnly pc
  let s : Int :=
    if digits.length = 10 then 10
    else if digits.length = 11 && pyStartsWith digits "1" then 10
    else if digits.length > 6 then 5 else 0
  let s := if matchParenPhone pc then s + 5 else if matchDashPhone pc then s + 3 else s
  if !(pyIn "ext" (pyLower pc)) then s + 2 else s

/-- Embedding of `_select_best_phone` (the scored entries carry the stripped phone, which is
what the best entry returns). -/
def select_best_phone (phones : List String) : Option String :=
  match phones.map pyStrip with
  | [] => none
  | p :: rest =>
    some (rest.foldl (fun best c => if scorePhone c > scorePhone best then c else best) p)

/-- Five consecutive digits anywhere (the `\d{5}(-\d{4})?` search). -/
def digitRunGo : List Char → Nat → Bool
  | [], run => run ≥ 5
  | c :: rest, run =>
    if run ≥ 5 then true
    else if c.isDigit then digitRunGo rest (run + 1)
    else digitRunGo rest 0

def hasDigitRun5 (s : String) : Bool := digitRunGo s.data 0

/-- A regex word character (`\w`). -/
def isWordChar (c : Char) : Bool := c.isAlphanum || c = '_'

/-- Scan for the `\b[A-Z]{2}\b` search: two upper-case letters delimited by
word boundaries. -/
def stateAbbrevGo (prev : Option Char) : List Char → Bool
  | a :: b :: rest =>
    ((match prev with | none => true | some p => !isWordChar p) &&
      a.isUpper && b.isUpper &&
      (match rest with | [] => true | c :: _ => !isWordChar c))
    || stateAbbrevGo (some a) (b :: rest)
  | _ => false

def hasStateAbbrev (s : String) : Bool := stateAbbrevGo none s.data

/-- The address score of `_select_best_address`. -/
def scoreAddress (address : String) : Int :=
  let ac := pyStrip address
  let comps := pySplit ac ","
  let s : Int := if comps.length ≥ 3 then 10 else if comps.length ≥ 2 then 5 else 0
  let s := if hasDigitRun5 ac then s + 5 else s
  let s := if hasStateAbbrev ac then s + 3 else s
  let s := if 30 ≤ ac.length && ac.length ≤ 150 then s + 2 else s
  if ac.length < 20 || ac.length > 200 then s - 5 else s

/-- Embedding of `_select_best_address`. -/
def select_best_address (addresses : List String) : Option String :=
  match addresses.map pyStrip with
  | [] => none
  | a :: rest =>
    some (rest.foldl (fun best c => if scoreAddress c > scoreAddress best then c else best) a)

/-- Embedding of `parse_contact_info_from_html` after candidate harvesting: exactly one best
value per category, or none. -/
def parse_contact_info (c : ContactCandidates) : ContactInfo :=
  { emails := match select_best_email c.emails with | some e => [e] | none => []
    phone_numbers := match select_best_phone c.phones with | some p => [p] | none => []
    addresses := match select_best_address c.addresses with | some a => [a] | none => [] }

/-! Claim C6 -/

/-- C6: the extracted `ContactInfo` holds at most one e-mail, and on the
candidate list `["sales@x.com", "info@x.com"]` the priority scoring selects
`info@x.com`. -/
theorem contact_email_selection :
    (∀ c : ContactCandidates, (parse_contact_info c).emails.length ≤ 1)
    ∧ select_best_email ["sales@x.com", "info@x.com"] = some "info@x.com" := by
  constructor
  · intro c
    unfold parse_contact_info
    dsimp only
    split <;> simp
  · decide

/-! Section: Fetcher (`scraper.WebScraper`)

Network responses are external nondeterminism: the per-attempt outcome of one
URL is an input `Nat → FetchOutcome` (attempt index to outcome) for the retry
loop, and the per-URL terminal outcome is an input `String → Option α` for the
batch fetch (`asyncio.gather` with `return_exceptions=True` never lets one
URL's failure escape, so each URL maps independently to its own outcome). -/

/-- The `config.Settings` scraping defaults (delay in seconds, `1.0` in source). -/
def REQUEST_TIMEOUT : Nat := 30

def MAX_RETRIES : Nat := 3

def RATE_LIMIT_DELAY : Nat := 1

/-- Outcome of one HTTP attempt: a response with a status, or a raised
transport error (`ClientError`, `TimeoutError`, other exceptions). -/
inductive FetchOutcome where
  | response (status : Nat) (body : String)
  | transportError
deriving DecidableEq, Repr

/-- The `response.status == 200` check: the body when successful. -/
def successBody : FetchOutcome → Option String
  | .response status body => if status = 200 then some body else none
  | .transportError => none

/-- Observable trace of one `fetch_html` call: the returned content, the number
of attempts made, and the sleeps (in seconds) between consecutive attempts. -/
structure FetchTrace where
  result : Option String
  attempts : Nat
  delays : List Nat
deriving DecidableEq, Repr

/-- The `for attempt in range(retries + 1)` loop of `fetch_html`: return the
body on a 200 response; otherwise sleep `RATE_LIMIT_DELAY * (attempt + 1)` when
`attempt < retries` and try again; `None` after the loop. -/
def fetchAttempts (responses : Nat → FetchOutcome) (retries : Nat) :
    Nat → Nat → FetchTrace
  | _, 0 => ⟨none, 0, []⟩
  | i, _remaining + 1 =>
    match successBody (responses i) with
    | some body => ⟨some body, 1, []⟩
    | none =>
      if i < retries then
        let t := fetchAttempts responses retries (i + 1) _remaining
        ⟨t.result, t.attempts + 1, RATE_LIMIT_DELAY * (i + 1) :: t.delays⟩
      else ⟨none, 1, []⟩

/-- Embedding of `fetch_html` (the URL argument only feeds logging and normalization and is
immaterial to the retry behaviour). -/
def fetch_html (responses : Nat → FetchOutcome) (retries : Nat) : FetchTrace :=
  fetchAttempts responses retries 0 (retries + 1)

/-- Python dict assignment `d[k] = v`: update in place when present, append
otherwise. -/
def dictInsert [BEq κ] (d : List (κ × ν)) (key : κ) (val : ν) : List (κ × ν) :=
  if d.any (fun p => p.1 == key) then
    d.map (fun p => if p.1 == key then (p.1, val) else p)
  else d ++ [(key, val)]

/-- Embedding of `fetch_multiple_pages`: gather all per-URL outcomes and record
`scraped_data[url] = result` for each URL in order (a failed or
exception-raising fetch records `None`). -/
def fetch_multiple_pages (fetch : String → Option α) (urls : List String) :
    List (String × Option α) :=
  urls.foldl (fun d u => dictInsert d u (fetch u)) []

/-! Claim C7 -/

theorem foldl_dictInsert_append (fetch : String → Option α)
    (d : List (String × Option α)) (urls : List String) :
    urls.foldl (fun d u => dictInsert d u (fetch u)) d =
      List.foldl (fun d u => dictInsert d u (fetch u)) d urls := rfl

theorem fetch_multiple_pages_eq_map (fetch : String → Option α) (urls : List String)
    (hnd : urls.Nodup) :
    fetch_multiple_pages fetch urls = urls.map (fun u => (u, fetch u)) := by
  induction urls using List.reverseRecOn with
  | nil => rfl
  | append_singleton us u ih =>
    have hparts := List.nodup_append.mp hnd
    have hu : u ∉ us := fun hmem => hparts.2.2 hmem (by simp)
    unfold fetch_multiple_pages at *
    rw [List.foldl_append, ih hparts.1]
    have hany : ((us.map (fun x => (x, fetch x))).any (fun p => p.1 == u)) = false := by
      simp only [List.any_map, List.any_eq_false, Function.comp_apply, beq_iff_eq]
      intro x hx he
      obtain ⟨y, hy, rfl⟩ := List.mem_map.mp hx
      exact hu (he ▸ hy)
    simp only [List.foldl_cons, List.foldl_nil, dictInsert, hany]
    simp

theorem lookup_map_self (g : String → Option α) (l : List String) (u : String)
    (hmem : u ∈ l) :
    List.lookup u (l.map (fun x => (x, g x))) = some (g u) := by
  induction l with
  | nil => cases hmem
  | cons a t ih =>
    by_cases h : u = a
    · subst h
      simp [List.lookup]
    · have hne : (u == a) = false := by simp [h]
      have hmt : u ∈ t := by
        cases hmem with
        | head => exact absurd rfl h
        | tail _ hm => exact hm
      simp only [List.map_cons, List.lookup, hne]
      exact ih hmt

/-- C7: for a batch of 5 distinct URLs of which exactly 2 fail terminally, the
batch result is a mapping with exactly 5 entries — 3 carrying content, 2 marked
absent — and each URL's entry is exactly its own fetch outcome, unaffected by
the other URLs (the embedding is total, so the call itself cannot raise). -/
theorem fetch_multiple_pages_isolated (fetch : String → Option α) (urls : List String)
    (hnd : urls.Nodup) (hlen : urls.length = 5)
    (hfail : urls.countP (fun u => (fetch u).isNone) = 2) :
    (fetch_multiple_pages fetch urls).length = 5
    ∧ (fetch_multiple_pages fetch urls).countP (fun p => p.2.isSome) = 3
    ∧ (fetch_multiple_pages fetch urls).countP (fun p => p.2.isNone) = 2
    ∧ ∀ u ∈ urls, List.lookup u (fetch_multiple_pages fetch urls) = some (fetch u) := by
  rw [fetch_multiple_pages_eq_map fetch urls hnd]
  have hsplit := List.length_eq_countP_add_countP (fun u => (fetch u).isNone) (l := urls)
  have hcong : urls.countP (fun a => decide ¬((fetch a).isNone = true)) =
      urls.countP (fun u => (fetch u).isSome) := by
    apply List.countP_congr
    intro a _
    cases h : fetch a <;> simp [h]
  refine ⟨by simp [hlen], ?_, ?_, ?_⟩
  · rw [List.countP_map]
    have : ((fun p : String × Option α => p.2.isSome) ∘ fun u => (u, fetch u)) =
        (fun u => (fetch u).isSome) := rfl
    rw [this]
    omega
  · rw [List.countP_map]
    exact hfail
  · intro u hu
    exact lookup_map_self fetch urls u hu

/-- Concrete batch: five distinct URLs, two of which terminally fail. -/
def exFetch : String → Option String := fun u =>
  if u = "https://s.example.com/" || u = "https://s.example.com/products.json" ||
      u = "https://s.example.com/pages/faq" then
    some "content"
  else none

def exUrls : List String :=
  [ "https://s.example.com/",
    "https://s.example.com/products.json",
    "https://s.example.com/pages/faq",
    "https://s.example.com/pages/about",
    "https://s.example.com/pages/contact" ]

set_option maxRecDepth 100000 in
/-- C7 witness: the theorem applied to the concrete five-URL batch. -/
theorem fetch_multiple_pages_isolated_witness :
    (fetch_multiple_pages exFetch exUrls).length = 5
    ∧ (fetch_multiple_pages exFetch exUrls).countP (fun p => p.2.isSome) = 3
    ∧ (fetch_multiple_pages exFetch exUrls).countP (fun p => p.2.isNone) = 2
    ∧ ∀ u ∈ exUrls, List.lookup u (fetch_multiple_pages exFetch exUrls) = some (exFetch u) :=
  fetch_multiple_pages_isolated exFetch exUrls (by decide) (by decide) (by decide)

/-! Claim C8 -/

set_option maxRecDepth 100000 in
/-- C8 counterexample: with the default configuration (`MAX_RETRIES = 3`) and
every attempt failing, `fetch_html` makes 4 attempts, not at most 3: the loop
runs `range(retries + 1)`, i.e. one initial attempt plus `retries` retries. -/
theorem fetch_html_four_attempts :
    ¬ ((fetch_html (fun _ => FetchOutcome.transportError) MAX_RETRIES).attempts ≤
        MAX_RETRIES) := by
  decide

theorem fetchAttempts_le (responses : Nat → FetchOutcome) (retries : Nat) :
    ∀ (remaining i : Nat), (fetchAttempts responses retries i remaining).attempts ≤ remaining := by
  intro remaining
  induction remaining with
  | zero => intro i; simp [fetchAttempts]
  | succ r ih =>
    intro i
    unfold fetchAttempts
    cases h : successBody (responses i) with
    | some body => simp
    | none =>
      dsimp only
      split
      · have := ih (i + 1)
        simp only
        omega
      · simp

theorem fetchAttempts_all_fail (responses : Nat → FetchOutcome) (retries : Nat)
    (hfail : ∀ i, successBody (responses i) = none) :
    ∀ (remaining i : Nat), i + remaining = retries + 1 →
      fetchAttempts responses retries i remaining =
        ⟨none, remaining, (List.range' (i + 1) (retries - i)).map
          (fun k => RATE_LIMIT_DELAY * k)⟩ := by
  intro remaining
  induction remaining with
  | zero =>
    intro i hi
    have : retries - i = 0 := by omega
    simp [fetchAttempts, this]
  | succ r ih =>
    intro i hi
    unfold fetchAttempts
    rw [hfail i]
    dsimp only
    by_cases hlt : i < retries
    · rw [if_pos hlt]
      rw [ih (i + 1) (by omega)]
      obtain ⟨r', rfl⟩ : ∃ r', r = r' + 1 := ⟨r - 1, by omega⟩
      have h1 : retries - i = r' + 1 := by omega
      have h2 : retries - (i + 1) = r' := by omega
      rw [h1, h2]
      rw [List.range'_succ]
      simp
    · rw [if_neg hlt]
      have hieq : i = retries := by omega
      have hr : r = 0 := by omega
      subst hieq hr
      simp

theorem fetchAttempts_success_at (responses : Nat → FetchOutcome) (retries j : Nat)
    (body : String) (hj : j ≤ retries) (hsucc : successBody (responses j) = some body)
    (hbefore : ∀ i, i < j → successBody (responses i) = none) :
    ∀ (remaining i : Nat), i + remaining = retries + 1 → i ≤ j →
      (fetchAttempts responses retries i remaining).result = some body
      ∧ (fetchAttempts responses retries i remaining).attempts = j + 1 - i := by
  intro remaining
  induction remaining with
  | zero => intro i hi hij; omega
  | succ r ih =>
    intro i hi hij
    unfold fetchAttempts
    by_cases hcur : i = j
    · subst hcur
      rw [hsucc]
      exact ⟨by trivial, by simp⟩
    · have hlt : i < j := by omega
      rw [hbefore i hlt]
      dsimp only
      rw [if_pos (by omega)]
      have := ih (i + 1) (by omega) (by omega)
      simp only
      constructor
      · exact this.1
      · rw [this.2]
        omega

/-- C8 (amended): a single-page fetch makes at most `retries + 1` attempts —
one initial attempt plus up to `retries` retries (default `MAX_RETRIES = 3`,
so up to 4 attempts, not 3); between consecutive attempts it sleeps the
linearly increasing `RATE_LIMIT_DELAY * (attempt + 1)` seconds (base 1s);
any non-200 response (hence any non-2xx) or transport error triggers the next
attempt; and after exhausting all attempts it returns absence of content
rather than raising. -/
theorem fetch_html_retry_behavior (responses : Nat → FetchOutcome) (retries : Nat) :
    (fetch_html responses retries).attempts ≤ retries + 1
    ∧ ((∀ i, successBody (responses i) = none) →
        (fetch_html responses retries).result = none
        ∧ (fetch_html responses retries).attempts = retries + 1
        ∧ (fetch_html responses retries).delays =
            (List.range retries).map (fun i => RATE_LIMIT_DELAY * (i + 1)))
    ∧ (∀ (j : Nat) (body : String), j ≤ retries →
        successBody (responses j) = some body →
        (∀ i, i < j → successBody (responses i) = none) →
        (fetch_html responses retries).result = some body
        ∧ (fetch_html responses retries).attempts = j + 1) := by
  refine ⟨fetchAttempts_le responses retries (retries + 1) 0, ?_, ?_⟩
  · intro hfail
    unfold fetch_html
    rw [fetchAttempts_all_fail responses retries hfail (retries + 1) 0 (by omega)]
    refine ⟨rfl, rfl, ?_⟩
    simp only [Nat.sub_zero, List.range'_eq_map_range, List.map_map]
    apply List.map_congr_left
    intro a _
    simp [Nat.add_comm]
  · intro j body hj hsucc hbefore
    unfold fetch_html
    have := fetchAttempts_success_at responses retries j body hj hsucc hbefore
      (retries + 1) 0 (by omega) (by omega)
    exact ⟨this.1, by rw [this.2]; omega⟩

set_option maxRecDepth 100000 in
/-- C8 witness: the amended theorem applied with all attempts failing at the
default retry count: 4 attempts, no content, delays 1s, 2s, 3s. -/
theorem fetch_html_retry_behavior_witness :
    (fetch_html (fun _ => FetchOutcome.transportError) 3).attempts ≤ 4
    ∧ (fetch_html (fun _ => FetchOutcome.transportError) 3).result = none
    ∧ (fetch_html (fun _ => FetchOutcome.transportError) 3).attempts = 4
    ∧ (fetch_html (fun _ => FetchOutcome.transportError) 3).delays = [1, 2, 3] := by
  have h := fetch_html_retry_behavior (fun _ => FetchOutcome.transportError) 3
  have h2 := h.2.1 (fun i => rfl)
  exact ⟨h.1, h2.1, h2.2.1, by rw [h2.2.2]; decide⟩

/-! Section: URL helpers (`utils.helpers`) -/

/-- Embedding of `urlparse(u).netloc` for URLs carrying a scheme (empty otherwise). -/
def urlNetloc (u : String) : String :=
  match pySplit u "://" with
  | _ :: rest :: _ => (pySplit rest "/").headD ""
  | _ => ""

/-- Drop the last `n` characters. -/
def pyDropRightN (s : String) (n : Nat) : String :=
  String.mk (s.data.take (s.data.length - n))

/-- Embedding of `utils.helpers.normalize_url`: strip, prepend `https://` when no scheme,
validate, drop one trailing slash; `validators.url` (an external library) is
modelled as requiring a dotted, space-free host; `none` models the raised
`ValueError`. -/
def normalize_url (url : String) : Option String :=
  if url = "" then none
  else
    let u := pyStrip url
    let u :=
      if pyStartsWith u "http://" || pyStartsWith u "https://" then u
      else "https://" ++ u
    let host := urlNetloc u
    if host ≠ "" && pyIn "." host && !(pyIn " " host) then
      some (if pyEndsWith u "/" then pyDropRightN u 1 else u)
    else none

/-- Embedding of `utils.helpers.extract_domain`: the netloc of the normalized URL, `none`
when normalization raises. -/
def extract_domain (url : String) : Option String :=
  (normalize_url url).map urlNetloc

/-! Section: Competitor finder (`competitor_finder.CompetitorFinder`)

The result of `_search_web_competitors` depends on live web requests and is an
input (`webSearch`); everything else is embedded.  `random.choice` calls only
decorate the `strength`/`market_position` fields and never influence control
flow or counts; they are modelled by their first alternative. -/

/-- Outcome of a Python call that can raise: a returned value or a named
uncaught exception. -/
inductive PyResult (α : Type) where
  | ok (val : α)
  | raises (exc : String)
deriving DecidableEq, Repr

/-- One competitor record as built by `find_competitors`. -/
structure Competitor where
  url : String
  domain : String
  title : String
  description : String
  category : String
  strength : String
  market_position : String
  source : String
deriving DecidableEq, Repr

/-- The `mock_competitors` table in dict insertion order (the duplicated
`glossier.com` key of the source literal collapses to one entry with the same
value, as Python dicts do; three source values contain a soft hyphen,
reproduced with `­`). -/
def mock_competitors : List (String × List String) :=
  [ ("allbirds.com", ["bombas.com", "rothy.com", "atoms.com", "vessi.com", "greats.com"]),
    ("colourpop.com", ["milkmakeup.com", "glossier.com", "rarebeauty.com", "fentybeauty.com", "elfcosmetics.com"]),
    ("gymshark.com", ["alphalete.com", "youngla.com", "nvgtn.com", "nike.com", "lululemon.com"]),
    ("beardbrand.com", ["theartofshaving.com", "beardcare.com", "gentlemensbeardclub.com", "beardbaron.com", "mountaineerbranded.com"]),
    ("bombas.com", ["allbirds.com", "rothy.com", "atoms.com", "smartwool.com", "stance.com"]),
    ("glossier.com", ["milkmakeup.com", "colourpop.com", "rarebeauty.com", "fentybeauty.com", "kyliecosmetics.com"]),
    ("casper.com", ["purplemattre­ss.com", "tuftandneedle.com", "saatva.com", "helix.com", "nectar.com"]),
    ("warbyparker.com", ["zennioptical.com", "eyebuydirect.com", "bonlook.com", "liingo.com", "firmoo.com"]),
    ("dollarshaveclub.com", ["harrys.com", "gillette.com", "flamingo.com", "billie.com", "cornerstone.com"]),
    ("theordinary.com", ["paulaschoice.com", "cerave.com", "cetaphil.com", "neutrogena.com", "skinmedica.com"]),
    ("mejuri.com", ["pandora.com", "kendra­scott.com", "gorjana.com", "catbirdnyc.com", "aurate.com"]),
    ("away.com", ["rimowa.com", "samsonite.com", "travelpro.com", "delsey.com", "monos.com"]),
    ("patagonia.com", ["rei.com", "thenorthface.com", "columbia.com", "arcteryx.com", "prana.com"]),
    ("everlane.com", ["cos.com", "uniqlo.com", "muji.com", "reformation.com", "grana.com"]),
    ("hairoriginals.com", ["devacurl.com", "curlsmith.com", "sheamoisture.com", "moroccanoil.com", "ouai.com"]),
    ("fashion", ["zara.com", "hm.com", "uniqlo.com", "cos.com", "arket.com"]),
    ("beauty", ["sephora.com", "ulta.com", "sallybeauty.com", "dermstore.com", "beautylish.com"]),
    ("fitness", ["nike.com", "adidas.com", "underarmour.com", "lululemon.com", "reebok.com"]),
    ("home", ["ikea.com", "wayfair.com", "westelm.com", "cb2.com", "crateandbarrel.com"]),
    ("tech", ["apple.com", "best­buy.com", "newegg.com", "bhphoto.com", "adorama.com"]) ]

def industry_category_names : List String := ["fashion", "beauty", "fitness", "home", "tech"]

/-- Embedding of `_get_mock_competitors`: direct key match, then industry-keyword match,
then partial key match over the non-industry keys in insertion order (the
`domain_parts` local of that loop is computed but unused in the source). -/
def get_mock_competitors (domain : String) (limit : Nat) : List String :=
  let clean := pyLower (pyReplace domain "www." "")
  match List.lookup clean mock_competitors with
  | some comps => (comps.take limit).map (fun c => "https://" ++ c)
  | none =>
    let industry_keywords : List (String × List String) :=
      [ ("beauty", ["beauty", "makeup", "cosmetic", "skincare", "hair"]),
        ("fashion", ["fashion", "clothing", "apparel", "wear", "style"]),
        ("fitness", ["fitness", "gym", "workout", "athletic", "sport"]),
        ("home", ["home", "furniture", "decor", "interior", "house"]),
        ("tech", ["tech", "electronic", "gadget", "device", "digital"]) ]
    match industry_keywords.findSome? (fun p =>
        if p.2.any (fun k => pyIn k clean) then
          match List.lookup p.1 mock_competitors with
          | some comps => some ((comps.take limit).map (fun c => "https://" ++ c))
          | none => none
        else none) with
    | some r => r
    | none =>
      match mock_competitors.findSome? (fun p =>
          if industry_category_names.contains p.1 then none
          else
            let key_parts := pySplit (pyReplace p.1 ".com" "") "."
            if key_parts.any (fun part => part.length > 3 && pyIn part clean) then
              some ((p.2.take limit).map (fun c => "https://" ++ c))
            else none) with
      | some r => r
      | none => []

/-- Embedding of `_generate_competitor_title`. -/
def generate_competitor_title (url : String) : String :=
  match extract_domain url with
  | none => "Competitor Website"
  | some domain =>
    if domain = "" then "Competitor Website"
    else
      let name := pyReplace (pyReplace (pyReplace (pyReplace domain ".com" "") ".co" "") ".net" "") "www." ""
      let formatted := String.intercalate " " ((pySplit name "-").map pyCapitalize)
      String.intercalate " " ((pySplit formatted ".").map pyCapitalize)

/-- Embedding of `_generate_competitor_description`. -/
def generate_competitor_description (url : String) : String :=
  let domain := pyLower ((extract_domain url).getD "")
  if ["beauty", "cosmetic", "makeup", "skincare"].any (fun t => pyIn t domain) then
    "Beauty and cosmetics retailer offering premium skincare and makeup products."
  else if ["fashion", "clothing", "apparel", "wear"].any (fun t => pyIn t domain) then
    "Fashion retailer specializing in contemporary clothing and accessories."
  else if ["fitness", "gym", "sport", "athletic"].any (fun t => pyIn t domain) then
    "Athletic and fitness brand offering performance sportswear and equipment."
  else if ["home", "furniture", "decor"].any (fun t => pyIn t domain) then
    "Home goods and furniture retailer with modern design focus."
  else if ["tech", "electronic", "gadget"].any (fun t => pyIn t domain) then
    "Technology retailer offering innovative electronics and gadgets."
  else
    "Established competitor in the same market segment as your business."

/-- Embedding of `_determine_category`. -/
def determine_category (url : String) : String :=
  let domain := pyLower ((extract_domain url).getD "")
  if ["beauty", "cosmetic", "makeup", "skincare"].any (fun t => pyIn t domain) then
    "Beauty & Personal Care"
  else if ["fashion", "clothing", "apparel", "wear"].any (fun t => pyIn t domain) then
    "Fashion & Apparel"
  else if ["fitness", "gym", "sport", "athletic"].any (fun t => pyIn t domain) then
    "Sports & Fitness"
  else if ["home", "furniture", "decor"].any (fun t => pyIn t domain) then
    "Home & Garden"
  else if ["tech", "electronic", "gadget"].any (fun t => pyIn t domain) then
    "Technology"
  else
    "E-commerce"

/-- Embedding of `_generate_industry_competitors`. -/
def generate_industry_competitors (domain : String) (needed : Nat) : List Competitor :=
  let industry_leaders : List (String × List String) :=
    [ ("beauty", ["sephora.com", "ulta.com", "beautylish.com"]),
      ("fashion", ["zara.com", "hm.com", "uniqlo.com"]),
      ("fitness", ["nike.com", "adidas.com", "lululemon.com"]),
      ("home", ["ikea.com", "wayfair.com", "westelm.com"]),
      ("tech", ["apple.com", "bestbuy.com", "newegg.com"]) ]
  let dl := pyLower domain
  let industry :=
    (([ ("beauty", ["beauty", "cosmetic", "makeup", "skincare"]),
        ("fashion", ["fashion", "clothing", "apparel", "wear"]),
        ("fitness", ["fitness", "gym", "sport", "athletic"]),
        ("home", ["home", "furniture", "decor"]),
        ("tech", ["tech", "electronic", "gadget"]) ] : List (String × List String)).findSome?
      (fun p => if p.2.any (fun k => pyIn k dl) then some p.1 else none)).getD "general"
  match List.lookup industry industry_leaders with
  | some leaders =>
    (leaders.take needed).map (fun leader =>
      { url := "https://" ++ leader
        domain := leader
        title := generate_competitor_title ("https://" ++ leader)
        description := generate_competitor_description ("https://" ++ leader)
        category := determine_category ("https://" ++ leader)
        strength := "Strong"
        market_position := "Industry Leader"
        source := "Industry Analysis" })
  | none => []

/-- Sort priority of the final quality sort. -/
def sourceRank (c : Competitor) : Nat :=
  if c.source = "Database" then 0
  else if c.source = "Web Search" then 1
  else if c.source = "Industry Analysis" then 2
  else if c.source = "AI Generated" then 3
  else if c.source = "Emergency Fallback" then 4
  else 5

/-- Stable insertion step: an element goes before later elements of equal
rank, matching Python's stable `list.sort`. -/
def insertBySourceRank (c : Competitor) : List Competitor → List Competitor
  | [] => [c]
  | x :: xs =>
    if sourceRank c ≤ sourceRank x then c :: x :: xs
    else x :: insertBySourceRank c xs

/-- The stable sort by source quality. -/
def sort_by_source (l : List Competitor) : List Competitor :=
  l.foldr insertBySourceRank []

/-- Embedding of `find_competitors`.  Methods 1–3 are embedded (`webSearch` being the web
search's outcome).  Method 4 calls `self._create_ai_generated_competitors` and
the `except` handler calls `self._create_emergency_competitors`, but both are
defined on `GoogleSearchCompetitorFinder`, not on `CompetitorFinder`, so when
fewer than 2 competitors accumulate the call raises `AttributeError` out of
the handler — modelled by `Except.error`. -/
def find_competitors (webSearch : List Competitor) (website_url : String) (limit : Nat) :
    PyResult (List Competitor) :=
  let domain :=
    match extract_domain website_url with
    | some d => if d = "" then "unknown" else d
    | none => "unknown"
  let competitors := (get_mock_competitors domain limit).map (fun comp_url =>
    { url := comp_url
      domain := (extract_domain comp_url).getD ""
      title := generate_competitor_title comp_url
      description := generate_competitor_description comp_url
      category := determine_category comp_url
      strength := "Strong"
      market_position := "Direct Competitor"
      source := "Database" })
  let competitors := if competitors.length < 2 then competitors ++ webSearch else competitors
  let competitors :=
    if competitors.length < 2 then
      competitors ++ generate_industry_competitors domain (max (2 - competitors.length) 2)
    else competitors
  if competitors.length < 2 then
    PyResult.raises "AttributeError"
  else
    PyResult.ok ((sort_by_source competitors).take (max 2 (min competitors.length limit)))

/-! Claim C3 -/

set_option maxRecDepth 1000000 in
/-- C3 failing input: for a domain absent from the lookup table with the web
search yielding nothing and the industry fallback empty, `find_competitors`
raises `AttributeError` instead of fabricating 2 placeholder records — its
fallback helper methods are defined on the wrong class. -/
theorem find_competitors_attribute_error :
    find_competitors [] "https://unknownstore.example.com" 5 =
      PyResult.raises "AttributeError" := by
  decide

/-! Section: Brand-name resolution
(`realtime_analyzer._extract_brand_name_from_title`,
`_extract_brand_name_from_url`, `_get_comprehensive_brand_name`)

The two meta signals and the title text of the page are the `BrandHtml` input;
`brandInfoName` is `brand_info.get('name')` (which the pipeline's
`parse_brand_info_from_html` never sets, its key being `brand_name`). -/

structure BrandHtml where
  title : Option String := none
  ogSiteName : Option String := none
  applicationName : Option String := none
deriving DecidableEq, Repr

/-- Embedding of `_extract_brand_name_from_title`: split on `|`, else `-`, taking the
trailing segment; else the first space-separated word. -/
def extract_brand_name_from_title (html : BrandHtml) : String :=
  match html.title with
  | some t =>
    let tt := pyStrip t
    if pyIn "|" tt then pyStrip ((pySplit tt "|").getLastD "")
    else if pyIn "-" tt then pyStrip ((pySplit tt "-").getLastD "")
    else (pySplit tt " ").headD ""
  | none => "Unknown Brand"

/-- Embedding of `_extract_brand_name_from_url`: domain without a single leading
`www./shop./store./m.` prefix, first dot-separated part stripped of
non-alphanumerics and upper-cased at the head; `capitalize()` fallback. -/
def extract_brand_name_from_url (url : String) : String :=
  let domain := pyLower (urlNetloc url)
  let domain :=
    if pyStartsWith domain "www." then domain.drop 4
    else if pyStartsWith domain "shop." then domain.drop 5
    else if pyStartsWith domain "store." then domain.drop 6
    else if pyStartsWith domain "m." then domain.drop 2
    else domain
  let parts := pySplit domain "."
  if parts.length ≥ 2 then
    let brand := String.mk ((parts.headD "").data.filter Char.isAlphanum)
    if brand ≠ "" then
      String.mk
        (match brand.data with
         | [] => []
         | c :: rest => c.toUpper :: rest)
    else pyCapitalize ((pySplit domain ".").headD "")
  else pyCapitalize ((pySplit domain ".").headD "")

def brandSuffixWords : List String := ["store", "shop", "official", "inc", "llc", "ltd"]

/-- One attempt of `re.sub(r'\s+(store|shop|official|inc|llc|ltd)\.?$', '', s,
IGNORECASE)` without the optional dot: the suffix word must be preceded by
whitespace, and the whole `\s+word` match is removed. -/
def stripSuffixCore (t : String) : Option String :=
  brandSuffixWords.findSome? (fun w =>
    if pyEndsWith (pyLower t) w then
      let pre := pyDropRightN t w.length
      match pre.data.getLast? with
      | some c =>
        if c.isWhitespace then some (dropRightWhileStr pre Char.isWhitespace) else none
      | none => none
    else none)

/-- The full suffix regex, with the optional trailing dot. -/
def strip_brand_suffix (s : String) : String :=
  match stripSuffixCore s with
  | some r => r
  | none =>
    if pyEndsWith s "." then
      match stripSuffixCore (pyDropRightN s 1) with
      | some r => r
      | none => s
    else s

/-- Embedding of the `re.sub` removing a trailing punctuation run: a trailing punctuation run and any
whitespace after it are removed together (nothing changes when no punctuation
run is present). -/
def strip_trailing_punct (s : String) : String :=
  let noWs := dropRightWhileStr s Char.isWhitespace
  let noPunct := dropRightWhileStr noWs (fun c => c = ':' || c = '-' || c = '|')
  if noPunct.length < noWs.length then noPunct else s

/-- Embedding of `_get_comprehensive_brand_name`: parser name (when not generic), page
title, `og:site_name` / `application-name` meta tags, URL-based fallback; then
suffix and punctuation cleanup with a final URL fallback when the cleanup
empties the name. -/
def get_comprehensive_brand_name (url : String) (html : Option BrandHtml)
    (brandInfoName : Option String) : String :=
  let step1 : Option String :=
    match brandInfoName with
    | some c =>
      if (pyStrip c).length > 0 then
        let cand := pyStrip c
        if !(["home", "welcome", "shop", "store"].any (fun w => pyIn w (pyLower cand))) then
          some cand
        else none
      else none
    | none => none
  let step2 : Option String :=
    match step1 with
    | some b => some b
    | none =>
      match html with
      | some h =>
        let t := extract_brand_name_from_title h
        if t ≠ "" && t ≠ "Unknown Brand" then some t else none
      | none => none
  let metaName : Option BrandHtml → Option String := fun oh =>
    match oh with
    | some h =>
      let fromOg : Option String :=
        match h.ogSiteName with
        | some c => if c ≠ "" then some (pyStrip c) else none
        | none => none
      -- an og value stripping to "" is falsy, so application-name is consulted
      match fromOg with
      | some b =>
        if b ≠ "" then some b
        else
          match h.applicationName with
          | some c => if c ≠ "" then some (pyStrip c) else none
          | none => none
      | none =>
        match h.applicationName with
        | some c => if c ≠ "" then some (pyStrip c) else none
        | none => none
    | none => none
  let step3 : Option String :=
    match step2 with
    | some b => some b
    | none => metaName html
  let step4 : String :=
    match step3 with
    | some b => if b ≠ "" then b else extract_brand_name_from_url url
    | none => extract_brand_name_from_url url
  if step4 ≠ "" then
    let cleaned := pyStrip (strip_trailing_punct (strip_brand_suffix step4))
    if cleaned.length > 0 then cleaned else extract_brand_name_from_url url
  else extract_brand_name_from_url url

/-! Claim C9 -/

set_option maxRecDepth 100000 in
/-- C9: with the title tag `Foo | Acme Store` as the only signal, the resolved
brand name is `Acme`: the title splits on the pipe taking the trailing segment
(`Acme Store`), and the trailing `store` suffix is then stripped. -/
theorem brand_name_title_resolution :
    get_comprehensive_brand_name "https://acmestore.example.com"
        (some { title := some "Foo | Acme Store" }) none = "Acme"
    ∧ extract_brand_name_from_title { title := some "Foo | Acme Store" } = "Acme Store"
    ∧ strip_brand_suffix "Acme Store" = "Acme" := by
  refine ⟨by decide, by decide, by decide⟩

end DeepSolv
